import Mathlib

/-!
Verification of the layout-converter component of the repository
(`src/cuda/cam-arrayfire/af_helpers.cpp`) and of the vendored thrust
CUDA `free` stub (`src/cuda/mm/thrust/thrust/detail/device/cuda/free.h`).

Sample values are modelled as rationals (`ℚ`): the converter performs no
arithmetic on pixel values beyond type conversions, and every conversion
exercised by the code (u8 → f32, f32 → f64, f32 re-read as f32) is exact
on the values considered, so `ℚ` is a faithful carrier for the float32
values held by the buffers.  The float32 narrowing of a true float64
source is not modelled (values are taken to be float32-representable).
-/

/-- OpenCV depth code `CV_8U` (unsigned 8-bit). -/
def CV_8U : ℕ := 0

/-- OpenCV depth code `CV_32F` (32-bit float). -/
def CV_32F : ℕ := 5

/-- OpenCV depth code `CV_64F` (64-bit float). -/
def CV_64F : ℕ := 6

/-- Model of `cv::Mat`: a host image buffer of `rows × cols` pixels with
`channels` interleaved channels and an element-depth tag, stored row-major
(pixel `(r,c)` channel `ch` at flat offset `(r*cols + c)*channels + ch`).
`data` gives the sample value at `(row, col, channel)`; it is total, with
values at out-of-range indices irrelevant to every theorem below. -/
structure CvMat where
  rows : ℕ
  cols : ℕ
  channels : ℕ
  depth : ℕ
  data : ℕ → ℕ → ℕ → ℚ

/-- Model of `cv::Mat::clone()`: a fresh buffer holding the same pixels. -/
def CvMat.clone (m : CvMat) : CvMat :=
  ⟨m.rows, m.cols, m.channels, m.depth, fun r c ch => m.data r c ch⟩

/-- Model of `cv::Mat::convertTo(·, rtype)` as used by the converter
(`CV_32F`, `CV_32FC3`, `CV_32FC2`): the depth becomes `CV_32F` and the
channel count is unchanged (OpenCV keeps the source channel count).  The
widenings performed by the code are value-preserving, so `data` is kept. -/
def CvMat.convertTo (m : CvMat) (rdepth : ℕ) : CvMat :=
  { m with depth := rdepth }

/-- Model of one output of `cv::split`: channel `ch` of `m` as a
single-channel `rows × cols` plane. -/
def CvMat.splitChannel (m : CvMat) (ch : ℕ) : ℕ → ℕ → ℚ :=
  fun r c => m.data r c ch

/-- Row-major flat view of a single-channel plane of width `w`
(`cv::Mat::ptr` on a single-channel matrix). -/
def rowMajorPtr (w : ℕ) (plane : ℕ → ℕ → ℚ) : ℕ → ℚ :=
  fun n => plane (n / w) (n % w)

/-- Model of `af::array`: a device buffer with dimensions `(d0, d1, d2)`.
`get i j k` is the element at (logical) position `(i, j)` of plane `k`;
physical storage is column-major, recovered by `AFArray.hostFlat`. -/
structure AFArray where
  d0 : ℕ
  d1 : ℕ
  d2 : ℕ
  get : ℕ → ℕ → ℕ → ℚ

/-- Model of the `af::array(d0, d1, host_ptr)` constructor: ArrayFire is
column-major, so the host pointer is read in column-major order and
element `(i, j)` is `ptr (i + d0 * j)`. -/
def afArray2 (d0 d1 : ℕ) (ptr : ℕ → ℚ) : AFArray :=
  ⟨d0, d1, 1, fun i j _ => ptr (i + d0 * j)⟩

/-- Model of the `af::array(d0, d1, d2)` constructor: a fresh device
buffer with unspecified contents (modelled as 0; no theorem below depends
on the contents before every plane has been assigned). -/
def afArray3 (d0 d1 d2 : ℕ) : AFArray :=
  ⟨d0, d1, d2, fun _ _ _ => 0⟩

/-- Model of `af::array::T()`: transpose of the two leading dimensions. -/
def AFArray.T (a : AFArray) : AFArray :=
  ⟨a.d1, a.d0, a.d2, fun i j k => a.get j i k⟩

/-- Model of the plane assignment `output(span, span, k) = p`. -/
def AFArray.setPlane (a : AFArray) (k : ℕ) (p : AFArray) : AFArray :=
  { a with get := fun i j k' => if k' = k then p.get i j 0 else a.get i j k' }

/-- Column-major flat storage of a device buffer (first dimension varies
fastest): the byte order `af::array::host` writes out. -/
def AFArray.hostFlat (a : AFArray) : ℕ → ℚ :=
  fun n => a.get (n % a.d0) (n / a.d0 % a.d1) (n / (a.d0 * a.d1))

/-- Model of `af::array::as(ty)`: element-wise cast. -/
def AFArray.asCast (a : AFArray) (f : ℚ → ℚ) : AFArray :=
  { a with get := fun i j k => f (a.get i j k) }

/-- Cast to `af::f64`: exact widening of a float32 value. -/
def castF64 : ℚ → ℚ := fun q => q

/-- Cast to `af::b8` and re-read the byte as `uchar`: the C cast of a
float32 value to a byte truncates toward zero and keeps the low 8 bits. -/
def castB8 : ℚ → ℚ :=
  fun q => ((Int.emod (Int.tdiv q.num (q.den : ℤ)) 256 : ℤ) : ℚ)

/-- Translation of `mat_to_array_` (`af_helpers.cpp` lines 6–31): builds
the device buffer from a host image, returning the working copy (mutated
in place by `convertTo`) together with the device output.  Dispatch is
`if channels == 1 / else if channels == 3 / else`, the last branch
assuming exactly 2 channels. -/
def mat_to_array_ (input : CvMat) : CvMat × AFArray :=
  let w := input.cols
  let h := input.rows
  if input.channels = 1 then
    let input := input.convertTo CV_32F
    (input, (afArray2 w h (rowMajorPtr w (input.splitChannel 0))).T)
  else if input.channels = 3 then
    let input := input.convertTo CV_32F
    let output := afArray3 h w 3
    let output := output.setPlane 0 ((afArray2 w h (rowMajorPtr w (input.splitChannel 2))).T)
    let output := output.setPlane 1 ((afArray2 w h (rowMajorPtr w (input.splitChannel 1))).T)
    let output := output.setPlane 2 ((afArray2 w h (rowMajorPtr w (input.splitChannel 0))).T)
    (input, output)
  else
    let input := input.convertTo CV_32F
    let output := afArray3 h w 2
    let output := output.setPlane 0 ((afArray2 w h (rowMajorPtr w (input.splitChannel 1))).T)
    let output := output.setPlane 1 ((afArray2 w h (rowMajorPtr w (input.splitChannel 0))).T)
    (input, output)

/-- Translation of the overload `array mat_to_array(const cv::Mat&)`:
clones the input and converts the clone. -/
def mat_to_array_ret (input : CvMat) : AFArray :=
  (mat_to_array_ input.clone).2

/-- A store of host buffers, indexed by address, used to make the
in-place mutation performed by `mat_to_array_` (and its absence on the
caller's buffer) observable. -/
def MatStore : Type := ℕ → CvMat

/-- Write a buffer at an address of the store. -/
def MatStore.write (s : MatStore) (a : ℕ) (m : CvMat) : MatStore :=
  fun x => if x = a then m else s x

/-- `mat_to_array_` acting at address `a` of a store: its in-place
`convertTo` mutation lands on the buffer at `a`. -/
def mat_to_array_inplace (s : MatStore) (a : ℕ) : MatStore × AFArray :=
  (s.write a (mat_to_array_ (s a)).1, (mat_to_array_ (s a)).2)

/-- Translation of the overload `void mat_to_array(const cv::Mat&, array&)`
(`af_helpers.cpp` lines 34–37): `cv::Mat tmp = input.clone();` places the
clone in a fresh buffer at `tmpAddr`, and `mat_to_array_(tmp, output)`
then works in place on that clone only. -/
def mat_to_array (s : MatStore) (inputAddr tmpAddr : ℕ) : MatStore × AFArray :=
  mat_to_array_inplace (s.write tmpAddr ((s inputAddr).clone)) tmpAddr

/-- Error taxonomy of the device-to-host conversion, from the spec. -/
inductive AfError where
  | unsupportedPlaneCount
  | unsupportedElementType
deriving DecidableEq

/-- Modelled from the spec: the `MSG` error macro is defined in
`af_helpers.hpp`, a repository header not present under `src/`.  Per the
spec's propagation policy, error conditions "must be surfaced to the
caller as a distinguishable failure value or exception", so `MSG` is
modelled as producing a distinguishable failure value. -/
def msgError (e : AfError) : Option AfError := some e

/-- Model of the `cv::Mat(rows, cols, type)` constructor used by
`array_to_mat`: a fresh single-channel buffer of the requested depth with
unspecified contents (modelled as 0; no theorem depends on them). -/
def CvMat.alloc (rows cols ty : ℕ) : CvMat :=
  ⟨rows, cols, 1, ty, fun _ _ _ => 0⟩

/-- Translation of `void array_to_mat(const array&, cv::Mat&, int)`
(`af_helpers.cpp` lines 51–68).  The result is the final value of the
`output` reference parameter together with the error reported by `MSG`
(if any).  The multi-plane check precedes the allocation of `output`, so
on that path `output` is returned untouched; the element-type check comes
after the allocation, matching the source order.  `host` writes the
transposed (and possibly cast) device data linearly into the row-major
host buffer, so pixel `(r, c)` receives flat element `r * cols + c`. -/
def array_to_mat (input : AFArray) (output : CvMat) (ty : ℕ) : CvMat × Option AfError :=
  if input.d2 ≠ 1 then
    (output, msgError .unsupportedPlaneCount)
  else
    let output := CvMat.alloc input.d0 input.d1 ty
    if ty = CV_32F then
      ({ output with data := fun r c _ => input.T.hostFlat (r * input.d1 + c) }, none)
    else if ty = CV_64F then
      ({ output with data := fun r c _ => (input.T.asCast castF64).hostFlat (r * input.d1 + c) }, none)
    else if ty = CV_8U then
      ({ output with data := fun r c _ => (input.T.asCast castB8).hostFlat (r * input.d1 + c) }, none)
    else
      (output, msgError .unsupportedElementType)

/-- Model of the CUDA heap: the set of live device allocations. -/
structure CudaHeap where
  live : List ℕ

/-- Model of `cudaFree` followed by the error check in the disabled body
of thrust's CUDA `free`: releases a live pointer, reports an error code
otherwise. -/
def cudaFreeModel (p : ℕ) (h : CudaHeap) : Except ℕ CudaHeap :=
  if p ∈ h.live then .ok ⟨h.live.erase p⟩ else .error 1

/-- The `#if 0` guard around the body of
`thrust::detail::device::cuda::free` in
`src/cuda/mm/thrust/thrust/detail/device/cuda/free.h` lines 36–41:
the preprocessor condition is `0`, so the body is compiled out. -/
def freeBodyEnabled : Bool := false

/-- Translation of `thrust::detail::device::cuda::free` (lines 34–42):
its entire body sits inside `#if 0 ... #endif`, so the compiled function
does nothing and returns normally. -/
def thrustCudaFree (p : ℕ) (h : CudaHeap) : Except ℕ CudaHeap :=
  if freeBodyEnabled then cudaFreeModel p h else .ok h

/-! Concrete inputs used by counterexamples and witnesses. -/

/-- A 1x2 single-channel 8-bit host image with pixel values 7 and 250. -/
def exMatU8 : CvMat :=
  ⟨1, 2, 1, CV_8U, fun _ c _ => if c = 0 then 7 else 250⟩

/-- The 1x1 3-channel host pixel of the spec scenario: (B, G, R) = (10, 20, 30). -/
def exMat3 : CvMat :=
  ⟨1, 1, 3, CV_8U, fun _ _ ch => if ch = 0 then 10 else if ch = 1 then 20 else 30⟩

/-- A 1x1 2-channel host pixel with channel values (4, 9). -/
def exMat2 : CvMat :=
  ⟨1, 1, 2, CV_8U, fun _ _ ch => if ch = 0 then 4 else 9⟩

/-- A 1x1 4-channel host pixel with channel values (7, 5, 1, 1). -/
def exMat4 : CvMat :=
  ⟨1, 1, 4, CV_8U, fun _ _ ch => if ch = 0 then 7 else if ch = 1 then 5 else 1⟩

/-- A 2x2 host image, 3 channels, whose planes are the non-symmetric
matrix [[1,2],[3,4]] in every channel. -/
def cexMat3 : CvMat :=
  ⟨2, 2, 3, CV_8U,
    fun r c _ => if r = 0 then (if c = 0 then 1 else 2) else (if c = 0 then 3 else 4)⟩

/-- A 2x2 host image, 2 channels, whose planes are the non-symmetric
matrix [[1,2],[3,4]] in every channel. -/
def cexMat2 : CvMat :=
  ⟨2, 2, 2, CV_8U,
    fun r c _ => if r = 0 then (if c = 0 then 1 else 2) else (if c = 0 then 3 else 4)⟩

/-- The 2x2 single-channel host image [[1,2],[3,4]] of the spec scenario. -/
def m22 : CvMat :=
  ⟨2, 2, 1, CV_8U,
    fun r c _ => if r = 0 then (if c = 0 then 1 else 2) else (if c = 0 then 3 else 4)⟩

/-- A 1x2 (one row, two columns) single-channel host image of zeros. -/
def cexMat9 : CvMat :=
  ⟨1, 2, 1, CV_8U, fun _ _ _ => 0⟩

/-- A single-plane 1x1 device buffer. -/
def exArr1p : AFArray :=
  ⟨1, 1, 1, fun _ _ _ => 0⟩

/-- A two-plane 1x1 device buffer. -/
def exArr2p : AFArray :=
  ⟨1, 1, 2, fun _ _ _ => 0⟩

/-! Helper lemmas about the converted device buffers. -/

theorem CvMat.clone_eq (m : CvMat) : m.clone = m := rfl


theorem afPlaneT_get (w h : ℕ) (p : ℕ → ℕ → ℚ) (i j k : ℕ) (hj : j < w) :
    ((afArray2 w h (rowMajorPtr w p)).T).get i j k = p i j := by
  have hw : 0 < w := Nat.pos_of_ne_zero (by omega)
  show p ((j + w * i) / w) ((j + w * i) % w) = p i j
  rw [Nat.add_mul_div_left _ _ hw, Nat.div_eq_of_lt hj, Nat.add_mul_mod_self_left,
    Nat.mod_eq_of_lt hj, Nat.zero_add]

theorem mat_to_array_ret_c1 (m : CvMat) (h : m.channels = 1) :
    mat_to_array_ret m =
      (afArray2 m.cols m.rows (rowMajorPtr m.cols ((m.convertTo CV_32F).splitChannel 0))).T := by
  simp only [mat_to_array_ret, CvMat.clone_eq, mat_to_array_, h, if_pos]

theorem mat_to_array_ret_c1_get (m : CvMat) (h : m.channels = 1) (i j k : ℕ)
    (hj : j < m.cols) :
    (mat_to_array_ret m).get i j k = m.data i j 0 := by
  rw [mat_to_array_ret_c1 m h, afPlaneT_get _ _ _ _ _ _ hj]
  rfl

theorem mat_to_array_ret_c1_dims (m : CvMat) (h : m.channels = 1) :
    (mat_to_array_ret m).d0 = m.rows ∧ (mat_to_array_ret m).d1 = m.cols ∧
      (mat_to_array_ret m).d2 = 1 := by
  rw [mat_to_array_ret_c1 m h]
  exact ⟨rfl, rfl, rfl⟩

theorem mat_to_array_ret_c3_get (m : CvMat) (h : m.channels = 3) (i j k : ℕ)
    (hj : j < m.cols) (hk : k < 3) :
    (mat_to_array_ret m).get i j k = m.data i j (2 - k) := by
  simp only [mat_to_array_ret, CvMat.clone_eq, mat_to_array_, h]
  norm_num
  interval_cases k <;>
    simp [AFArray.setPlane, afPlaneT_get _ _ _ _ _ _ hj] <;> rfl

theorem mat_to_array_ret_c3_dims (m : CvMat) (h : m.channels = 3) :
    (mat_to_array_ret m).d0 = m.rows ∧ (mat_to_array_ret m).d1 = m.cols ∧
      (mat_to_array_ret m).d2 = 3 := by
  simp only [mat_to_array_ret, CvMat.clone_eq, mat_to_array_, h]
  norm_num
  exact ⟨rfl, rfl, rfl⟩

theorem mat_to_array_ret_else_get (m : CvMat) (h1 : m.channels ≠ 1) (h3 : m.channels ≠ 3)
    (i j k : ℕ) (hj : j < m.cols) (hk : k < 2) :
    (mat_to_array_ret m).get i j k = m.data i j (1 - k) := by
  simp only [mat_to_array_ret, CvMat.clone_eq, mat_to_array_, if_neg h1, if_neg h3]
  interval_cases k <;>
    simp [AFArray.setPlane, afPlaneT_get _ _ _ _ _ _ hj] <;> rfl

theorem mat_to_array_ret_else_dims (m : CvMat) (h1 : m.channels ≠ 1) (h3 : m.channels ≠ 3) :
    (mat_to_array_ret m).d0 = m.rows ∧ (mat_to_array_ret m).d1 = m.cols ∧
      (mat_to_array_ret m).d2 = 2 := by
  simp only [mat_to_array_ret, CvMat.clone_eq, mat_to_array_, if_neg h1, if_neg h3]
  exact ⟨rfl, rfl, rfl⟩

theorem T_hostFlat_rc (a : AFArray) (r c : ℕ) (hr : r < a.d0) (hc : c < a.d1) :
    a.T.hostFlat (r * a.d1 + c) = a.get r c 0 := by
  have hlt : r * a.d1 + c < a.d1 * a.d0 := by
    have h1 : r * a.d1 + c < (r + 1) * a.d1 := by
      rw [Nat.succ_mul]
      omega
    have h2 : (r + 1) * a.d1 ≤ a.d0 * a.d1 := Nat.mul_le_mul_right _ hr
    rw [Nat.mul_comm a.d1 a.d0]
    omega
  have hd1 : 0 < a.d1 := by omega
  have e1 : (r * a.d1 + c) % a.d1 = c := by
    rw [Nat.mul_comm, Nat.mul_add_mod, Nat.mod_eq_of_lt hc]
  have e2 : (r * a.d1 + c) / a.d1 % a.d0 = r := by
    rw [Nat.mul_comm r, Nat.mul_add_div hd1, Nat.div_eq_of_lt hc, Nat.add_zero,
      Nat.mod_eq_of_lt hr]
  have e3 : (r * a.d1 + c) / (a.d1 * a.d0) = 0 := Nat.div_eq_of_lt hlt
  show a.get ((r * a.d1 + c) / a.d1 % a.d0) ((r * a.d1 + c) % a.d1)
      ((r * a.d1 + c) / (a.d1 * a.d0)) = a.get r c 0
  rw [e1, e2, e3]

theorem asCast_hostFlat (a : AFArray) (f : ℚ → ℚ) (n : ℕ) :
    (a.asCast f).hostFlat n = f (a.hostFlat n) := rfl

theorem rat_den_one (q : ℚ) (h : q.den = 1) : (q.num : ℚ) = q := by
  have hq := Rat.num_div_den q
  rw [h] at hq
  simpa using hq

theorem castB8_byte (q : ℚ) (h1 : q.den = 1) (h2 : 0 ≤ q.num) (h3 : q.num < 256) :
    castB8 q = q := by
  simp only [castB8, h1, Nat.cast_one, Int.tdiv_one]
  have h4 : q.num.emod 256 = q.num := Int.emod_eq_of_lt h2 h3
  rw [h4]
  exact rat_den_one q h1

theorem array_to_mat_multiplane (input : AFArray) (m₀ : CvMat) (ty : ℕ)
    (h : input.d2 ≠ 1) :
    array_to_mat input m₀ ty = (m₀, some AfError.unsupportedPlaneCount) := by
  simp only [array_to_mat, if_pos h]
  rfl

theorem array_to_mat_branch_f32 (input : AFArray) (m₀ : CvMat) (h : input.d2 = 1) :
    array_to_mat input m₀ CV_32F =
      (⟨input.d0, input.d1, 1, CV_32F,
        fun r c _ => input.T.hostFlat (r * input.d1 + c)⟩, none) := by
  simp only [array_to_mat, h]
  norm_num
  simp [CvMat.alloc]

theorem array_to_mat_branch_f64 (input : AFArray) (m₀ : CvMat) (h : input.d2 = 1) :
    array_to_mat input m₀ CV_64F =
      (⟨input.d0, input.d1, 1, CV_64F,
        fun r c _ => (input.T.asCast castF64).hostFlat (r * input.d1 + c)⟩, none) := by
  simp only [array_to_mat, h]
  norm_num [CV_64F, CV_32F]
  simp [CvMat.alloc]

theorem array_to_mat_branch_u8 (input : AFArray) (m₀ : CvMat) (h : input.d2 = 1) :
    array_to_mat input m₀ CV_8U =
      (⟨input.d0, input.d1, 1, CV_8U,
        fun r c _ => (input.T.asCast castB8).hostFlat (r * input.d1 + c)⟩, none) := by
  simp only [array_to_mat, h]
  norm_num [CV_8U, CV_32F, CV_64F]
  simp [CvMat.alloc]

theorem array_to_mat_branch_bad (input : AFArray) (m₀ : CvMat) (ty : ℕ) (h : input.d2 = 1)
    (h1 : ty ≠ CV_32F) (h2 : ty ≠ CV_64F) (h3 : ty ≠ CV_8U) :
    array_to_mat input m₀ ty =
      (CvMat.alloc input.d0 input.d1 ty, some AfError.unsupportedElementType) := by
  simp only [array_to_mat, h, if_neg h1, if_neg h2, if_neg h3]
  norm_num
  rfl

theorem hostFlat_get (a : AFArray) (i j k : ℕ) (hi : i < a.d0) (hj : j < a.d1) :
    a.hostFlat (i + a.d0 * (j + a.d1 * k)) = a.get i j k := by
  have h0 : 0 < a.d0 := by omega
  have h1 : 0 < a.d1 := by omega
  have e1 : (i + a.d0 * (j + a.d1 * k)) % a.d0 = i := by
    rw [Nat.add_mul_mod_self_left, Nat.mod_eq_of_lt hi]
  have e2 : (i + a.d0 * (j + a.d1 * k)) / a.d0 = j + a.d1 * k := by
    rw [Nat.add_mul_div_left _ _ h0, Nat.div_eq_of_lt hi, Nat.zero_add]
  have e3 : (j + a.d1 * k) % a.d1 = j := by
    rw [Nat.add_mul_mod_self_left, Nat.mod_eq_of_lt hj]
  have e4 : (i + a.d0 * (j + a.d1 * k)) / (a.d0 * a.d1) = k := by
    rw [show i + a.d0 * (j + a.d1 * k) = (i + a.d0 * j) + (a.d0 * a.d1) * k by ring,
      Nat.add_mul_div_left _ _ (Nat.mul_pos h0 h1)]
    have hsmall : i + a.d0 * j < a.d0 * a.d1 := by
      have hstep : a.d0 * (j + 1) ≤ a.d0 * a.d1 := Nat.mul_le_mul_left _ hj
      have hexp : a.d0 * (j + 1) = a.d0 * j + a.d0 := by ring
      omega
    rw [Nat.div_eq_of_lt hsmall, Nat.zero_add]
  show a.get ((i + a.d0 * (j + a.d1 * k)) % a.d0)
      ((i + a.d0 * (j + a.d1 * k)) / a.d0 % a.d1)
      ((i + a.d0 * (j + a.d1 * k)) / (a.d0 * a.d1)) = a.get i j k
  rw [e1, e2, e3, e4]

/-! Claim theorems. -/

/-- C1: for every 1-channel host image whose samples are carried exactly
through the float32 widening (always the case for 8-bit sources, which
round-trip exactly), `mat_to_array` followed by `array_to_mat` at the
matching element type reproduces the original image: no error is
reported, the shape and depth are restored, and every in-range pixel
value is reproduced. -/
theorem roundtrip_matching_type (m m₀ : CvMat) (hch : m.channels = 1)
    (hd : m.depth = CV_8U ∨ m.depth = CV_32F ∨ m.depth = CV_64F)
    (h8 : m.depth = CV_8U → ∀ r, r < m.rows → ∀ c, c < m.cols →
      (m.data r c 0).den = 1 ∧ 0 ≤ (m.data r c 0).num ∧ (m.data r c 0).num < 256) :
    (array_to_mat (mat_to_array_ret m) m₀ m.depth).2 = none ∧
    (array_to_mat (mat_to_array_ret m) m₀ m.depth).1.rows = m.rows ∧
    (array_to_mat (mat_to_array_ret m) m₀ m.depth).1.cols = m.cols ∧
    (array_to_mat (mat_to_array_ret m) m₀ m.depth).1.depth = m.depth ∧
    ∀ r, r < m.rows → ∀ c, c < m.cols →
      (array_to_mat (mat_to_array_ret m) m₀ m.depth).1.data r c 0 = m.data r c 0 := by
  obtain ⟨hd0, hd1, hd2⟩ := mat_to_array_ret_c1_dims m hch
  have hdata : ∀ r, r < m.rows → ∀ c, c < m.cols →
      (mat_to_array_ret m).T.hostFlat (r * (mat_to_array_ret m).d1 + c) = m.data r c 0 := by
    intro r hr c hc
    rw [T_hostFlat_rc _ r c (by omega) (by omega)]
    exact mat_to_array_ret_c1_get m hch r c 0 (by omega)
  rcases hd with h0 | h5 | h6
  · rw [h0, array_to_mat_branch_u8 _ _ hd2]
    refine ⟨rfl, hd0, hd1, rfl, ?_⟩
    intro r hr c hc
    show ((mat_to_array_ret m).T.asCast castB8).hostFlat
      (r * (mat_to_array_ret m).d1 + c) = m.data r c 0
    rw [asCast_hostFlat, hdata r hr c hc]
    obtain ⟨b1, b2, b3⟩ := h8 h0 r hr c hc
    exact castB8_byte _ b1 b2 b3
  · rw [h5, array_to_mat_branch_f32 _ _ hd2]
    exact ⟨rfl, hd0, hd1, rfl, fun r hr c hc => hdata r hr c hc⟩
  · rw [h6, array_to_mat_branch_f64 _ _ hd2]
    refine ⟨rfl, hd0, hd1, rfl, ?_⟩
    intro r hr c hc
    show ((mat_to_array_ret m).T.asCast castF64).hostFlat
      (r * (mat_to_array_ret m).d1 + c) = m.data r c 0
    rw [asCast_hostFlat, hdata r hr c hc]
    rfl

/-- Witness for C1 at the concrete 1x2 8-bit image (7, 250). -/
theorem roundtrip_matching_type_witness :
    (array_to_mat (mat_to_array_ret exMatU8) (CvMat.alloc 0 0 0) exMatU8.depth).2 = none ∧
    (array_to_mat (mat_to_array_ret exMatU8) (CvMat.alloc 0 0 0) exMatU8.depth).1.data 0 1 0
      = 250 := by
  have h := roundtrip_matching_type exMatU8 (CvMat.alloc 0 0 0) rfl (Or.inl rfl) (by decide)
  refine ⟨h.1, ?_⟩
  rw [h.2.2.2.2 0 (by decide) 1 (by decide)]
  decide

/-- C2 counterexample: for the 2x2 3-channel image `cexMat3`, plane 0 of
the device buffer at position (0,1) differs from the transpose of host
channel 2 at (0,1) (the plane equals the channel, it is not its
transpose). -/
theorem channel3_transpose_claim_cex :
    (mat_to_array_ret cexMat3).get 0 1 0 ≠ cexMat3.splitChannel 2 1 0 := by
  decide

/-- C2 amended: for every 3-channel host image, device plane 0 equals
host channel 2, plane 1 equals channel 1 and plane 2 equals channel 0,
element-wise at the same (row, col) indices (after widening); in
particular the 1x1 pixel (B=10, G=20, R=30) yields planes 30, 20, 10. -/
theorem channel3_planes_reverse_equal (m : CvMat) (hch : m.channels = 3)
    (i j : ℕ) (hi : i < m.rows) (hj : j < m.cols) :
    (mat_to_array_ret m).get i j 0 = m.data i j 2 ∧
    (mat_to_array_ret m).get i j 1 = m.data i j 1 ∧
    (mat_to_array_ret m).get i j 2 = m.data i j 0 :=
  ⟨mat_to_array_ret_c3_get m hch i j 0 hj (by norm_num),
   mat_to_array_ret_c3_get m hch i j 1 hj (by norm_num),
   mat_to_array_ret_c3_get m hch i j 2 hj (by norm_num)⟩

/-- Witness for C2 (amended) at the spec's 1x1 scenario pixel: the device
planes receive 30, 20, 10. -/
theorem channel3_planes_reverse_equal_witness :
    (mat_to_array_ret exMat3).get 0 0 0 = 30 ∧
    (mat_to_array_ret exMat3).get 0 0 1 = 20 ∧
    (mat_to_array_ret exMat3).get 0 0 2 = 10 :=
  channel3_planes_reverse_equal exMat3 rfl 0 0 (by decide) (by decide)

/-- C3 counterexample: for the 2x2 image [[1,2],[3,4]], transposing the
device plane does NOT reproduce the host image: at (0,1) the transposed
plane holds 3 while the host holds 2 (the plane itself already equals the
host image; transposing it swaps 2 and 3). -/
theorem scenario2x2_transpose_back_cex :
    (mat_to_array_ret m22).T.get 0 1 0 ≠ m22.data 0 1 0 := by
  decide

/-- C3 amended: the 2x2 single-channel host buffer [[1,2],[3,4]] converts
to a device plane that directly (at the same (row, col) indices, without
transposing) holds [[1,2],[3,4]], and converting that device plane back
with element type `CV_8U` succeeds and yields exactly [[1,2],[3,4]] in a
2x2 host buffer (no precision loss for small integral values). -/
theorem scenario2x2_direct_u8_exact :
    (mat_to_array_ret m22).get 0 0 0 = 1 ∧
    (mat_to_array_ret m22).get 0 1 0 = 2 ∧
    (mat_to_array_ret m22).get 1 0 0 = 3 ∧
    (mat_to_array_ret m22).get 1 1 0 = 4 ∧
    (array_to_mat (mat_to_array_ret m22) (CvMat.alloc 0 0 0) CV_8U).2 = none ∧
    (array_to_mat (mat_to_array_ret m22) (CvMat.alloc 0 0 0) CV_8U).1.rows = 2 ∧
    (array_to_mat (mat_to_array_ret m22) (CvMat.alloc 0 0 0) CV_8U).1.cols = 2 ∧
    (array_to_mat (mat_to_array_ret m22) (CvMat.alloc 0 0 0) CV_8U).1.data 0 0 0 = 1 ∧
    (array_to_mat (mat_to_array_ret m22) (CvMat.alloc 0 0 0) CV_8U).1.data 0 1 0 = 2 ∧
    (array_to_mat (mat_to_array_ret m22) (CvMat.alloc 0 0 0) CV_8U).1.data 1 0 0 = 3 ∧
    (array_to_mat (mat_to_array_ret m22) (CvMat.alloc 0 0 0) CV_8U).1.data 1 1 0 = 4 := by
  decide

/-- C4: called on a device buffer with more than one plane, the
device-to-host conversion reports `UnsupportedPlaneCount` and leaves the
output buffer exactly as it was. -/
theorem array_to_mat_plane_reject (a : AFArray) (m₀ : CvMat) (ty : ℕ) (h : 1 < a.d2) :
    array_to_mat a m₀ ty = (m₀, some AfError.unsupportedPlaneCount) :=
  array_to_mat_multiplane a m₀ ty (by omega)

/-- Witness for C4 at a concrete two-plane buffer. -/
theorem array_to_mat_plane_reject_witness :
    1 < exArr2p.d2 ∧
    array_to_mat exArr2p (CvMat.alloc 0 0 0) CV_32F
      = (CvMat.alloc 0 0 0, some AfError.unsupportedPlaneCount) :=
  ⟨by decide, array_to_mat_plane_reject exArr2p (CvMat.alloc 0 0 0) CV_32F (by decide)⟩

/-- C5: called on a single-plane buffer with a requested element type
outside float32/float64/uint8, the device-to-host conversion surfaces the
distinguishable failure `UnsupportedElementType` (never `none`, i.e. it
is never reported as success). -/
theorem array_to_mat_type_reject (a : AFArray) (m₀ : CvMat) (ty : ℕ) (hp : a.d2 = 1)
    (h1 : ty ≠ CV_32F) (h2 : ty ≠ CV_64F) (h3 : ty ≠ CV_8U) :
    (array_to_mat a m₀ ty).2 = some AfError.unsupportedElementType := by
  rw [array_to_mat_branch_bad a m₀ ty hp h1 h2 h3]

/-- Witness for C5 at a single-plane buffer and element type 4
(`CV_32S`, a type the conversion does not support). -/
theorem array_to_mat_type_reject_witness :
    exArr1p.d2 = 1 ∧ (4 : ℕ) ≠ CV_32F ∧ (4 : ℕ) ≠ CV_64F ∧ (4 : ℕ) ≠ CV_8U ∧
    (array_to_mat exArr1p (CvMat.alloc 0 0 0) 4).2 = some AfError.unsupportedElementType :=
  ⟨by decide, by decide, by decide, by decide,
   array_to_mat_type_reject exArr1p (CvMat.alloc 0 0 0) 4 (by decide) (by decide)
     (by decide) (by decide)⟩

/-- C6 counterexample: for the 2x2 2-channel image `cexMat2`, plane 0 of
the device buffer at position (0,1) differs from the transpose of host
channel 1 at (0,1) (the plane equals the channel, not its transpose). -/
theorem channel2_transpose_claim_cex :
    (mat_to_array_ret cexMat2).get 0 1 0 ≠ cexMat2.splitChannel 1 1 0 := by
  decide

/-- C6 amended: for every 2-channel host image, device plane 0 equals
host channel 1 and plane 1 equals host channel 0, element-wise at the
same (row, col) indices (after widening). -/
theorem channel2_planes_reverse_equal (m : CvMat) (hch : m.channels = 2)
    (i j : ℕ) (hi : i < m.rows) (hj : j < m.cols) :
    (mat_to_array_ret m).get i j 0 = m.data i j 1 ∧
    (mat_to_array_ret m).get i j 1 = m.data i j 0 :=
  ⟨mat_to_array_ret_else_get m (by omega) (by omega) i j 0 hj (by norm_num),
   mat_to_array_ret_else_get m (by omega) (by omega) i j 1 hj (by norm_num)⟩

/-- Witness for C6 (amended) at the 1x1 2-channel pixel (4, 9). -/
theorem channel2_planes_reverse_equal_witness :
    (mat_to_array_ret exMat2).get 0 0 0 = 9 ∧
    (mat_to_array_ret exMat2).get 0 0 1 = 4 :=
  channel2_planes_reverse_equal exMat2 rfl 0 0 (by decide) (by decide)

/-- C7: for every host image whose channel count is neither 1 nor 3, the
conversion runs the unconditional else branch (which assumes 2 channels):
it produces a 2-plane device buffer filled from host channels 1 and 0,
and never reports an UnsupportedChannelCount error (the model of
`mat_to_array_` is a total function without an error outcome, mirroring
the source, which has no rejection path). -/
theorem else_branch_two_plane_output (m : CvMat)
    (h1 : m.channels ≠ 1) (h3 : m.channels ≠ 3)
    (i j : ℕ) (hi : i < m.rows) (hj : j < m.cols) :
    (mat_to_array_ret m).d2 = 2 ∧
    (mat_to_array_ret m).get i j 0 = m.data i j 1 ∧
    (mat_to_array_ret m).get i j 1 = m.data i j 0 :=
  ⟨(mat_to_array_ret_else_dims m h1 h3).2.2,
   mat_to_array_ret_else_get m h1 h3 i j 0 hj (by norm_num),
   mat_to_array_ret_else_get m h1 h3 i j 1 hj (by norm_num)⟩

/-- Witness for C7 at a 1x1 4-channel pixel: the output has two planes,
built from channels 1 and 0; channels 2 and 3 are silently dropped. -/
theorem else_branch_two_plane_output_witness :
    (mat_to_array_ret exMat4).d2 = 2 ∧
    (mat_to_array_ret exMat4).get 0 0 0 = 5 ∧
    (mat_to_array_ret exMat4).get 0 0 1 = 7 :=
  else_branch_two_plane_output exMat4 (by decide) (by decide) 0 0
    (by decide) (by decide)

/-- C8: the public host-to-device conversion clones the input and runs
the destructive conversion on the clone only, so the caller's buffer
(stored at `inputAddr`) is unchanged after the call, provided the clone
lives at a different address (which a fresh allocation guarantees). -/
theorem caller_buffer_unchanged (s : MatStore) (inputAddr tmpAddr : ℕ)
    (h : tmpAddr ≠ inputAddr) :
    (mat_to_array s inputAddr tmpAddr).1 inputAddr = s inputAddr := by
  have h' : inputAddr ≠ tmpAddr := Ne.symm h
  simp [mat_to_array, mat_to_array_inplace, MatStore.write, h']

/-- Witness for C8 at a concrete store holding `exMatU8` at address 1. -/
theorem caller_buffer_unchanged_witness :
    (mat_to_array (fun _ => exMatU8) 1 0).1 1 = exMatU8 :=
  caller_buffer_unchanged (fun _ => exMatU8) 1 0 (by norm_num)

/-- C9 counterexample: for a 1x2 (H=1, W=2) single-channel host image the
device buffer's first dimension is 1 = H, not 2 = W, refuting the claimed
(W, H, C) dimension order. -/
theorem dims_order_claim_cex :
    (mat_to_array_ret cexMat9).d0 ≠ cexMat9.cols := by
  decide

/-- C9 amended: for every host image with 1, 2 or 3 channels, the device
buffer has dimensions ordered (H, W, C) with column-major storage (first
dimension varies fastest); each plane k is logically equal, at the same
(row, col) indices, to the host's channel C-1-k after widening, so its
column-major flat storage is that host plane traversed column-by-column
(the transpose-order traversal of the host's row-major plane). -/
theorem dims_height_width_channels (m : CvMat)
    (hch : m.channels = 1 ∨ m.channels = 2 ∨ m.channels = 3)
    (i j k : ℕ) (hi : i < m.rows) (hj : j < m.cols) (hk : k < m.channels) :
    (mat_to_array_ret m).d0 = m.rows ∧
    (mat_to_array_ret m).d1 = m.cols ∧
    (mat_to_array_ret m).d2 = m.channels ∧
    (mat_to_array_ret m).get i j k = m.data i j (m.channels - 1 - k) ∧
    (mat_to_array_ret m).hostFlat (i + m.rows * (j + m.cols * k))
      = m.data i j (m.channels - 1 - k) := by
  have main : (mat_to_array_ret m).d0 = m.rows ∧
      (mat_to_array_ret m).d1 = m.cols ∧
      (mat_to_array_ret m).d2 = m.channels ∧
      (mat_to_array_ret m).get i j k = m.data i j (m.channels - 1 - k) := by
    rcases hch with h1 | h2 | h3
    · obtain ⟨e0, e1, e2⟩ := mat_to_array_ret_c1_dims m h1
      have hk0 : k = 0 := by omega
      refine ⟨e0, e1, by omega, ?_⟩
      rw [hk0, h1]
      exact mat_to_array_ret_c1_get m h1 i j 0 hj
    · obtain ⟨e0, e1, e2⟩ := mat_to_array_ret_else_dims m (by omega) (by omega)
      refine ⟨e0, e1, by omega, ?_⟩
      rw [h2]
      exact mat_to_array_ret_else_get m (by omega) (by omega) i j k hj (by omega)
    · obtain ⟨e0, e1, e2⟩ := mat_to_array_ret_c3_dims m h3
      refine ⟨e0, e1, by omega, ?_⟩
      rw [h3]
      exact mat_to_array_ret_c3_get m h3 i j k hj (by omega)
  obtain ⟨e0, e1, e2, eget⟩ := main
  refine ⟨e0, e1, e2, eget, ?_⟩
  rw [show i + m.rows * (j + m.cols * k)
      = i + (mat_to_array_ret m).d0 * (j + (mat_to_array_ret m).d1 * k) by rw [e0, e1]]
  rw [hostFlat_get _ i j k (by omega) (by omega)]
  exact eget

/-- Witness for C9 (amended) at the 1x1 scenario pixel, plane 0. -/
theorem dims_height_width_channels_witness :
    (mat_to_array_ret exMat3).d0 = 1 ∧
    (mat_to_array_ret exMat3).d1 = 1 ∧
    (mat_to_array_ret exMat3).d2 = 3 ∧
    (mat_to_array_ret exMat3).get 0 0 0 = 30 ∧
    (mat_to_array_ret exMat3).hostFlat 0 = 30 :=
  dims_height_width_channels exMat3 (Or.inr (Or.inr rfl)) 0 0 0
    (by decide) (by decide) (by decide)

/-- C10: the vendored thrust CUDA `free` is a no-op: its body is inside
`#if 0`, so it deallocates nothing, reports no error, and returns the
heap unchanged for every pointer. -/
theorem thrust_cuda_free_noop (p : ℕ) (h : CudaHeap) :
    thrustCudaFree p h = Except.ok h := rfl
